import Mathlib

/-!
Verification of the mysqlstore session store against its specification.

The development shallowly embeds the two source files of the repository:

* `mysqlstore.go` — the `MySQLStore` type, its constructor
  `NewMySQLStoreFromConnection`, and the per-session operations
  `New`, `Save`, `insert`, `save`, `load`, `Delete`, plus the SQL
  statements they prepare (`insQ`, `delQ`, `updQ`, `selQ`, `cleanQ`).
* `cleanup.go` — the background expiration sweeper: `Cleanup`,
  `StopCleanup` and the goroutine body `cleanup`.

The database is modelled as a list of rows plus the auto-increment
counter; each SQL statement becomes a pure function of the database
state and the current time (`NOW()` is a parameter).  The
gorilla/securecookie codec stack, the SQL driver error for a statement
execution, and the scheduling of the sweeper goroutine's `select` are
external inputs, so they are passed in explicitly: the codec as a
record of encode/decode functions, an execution error as an
`Option String` oracle, and the goroutine's scheduling as a list of
`select` outcomes (tick or quit).
-/

namespace Mysqlstore

/-- The session values map (`session.Values` in gorilla/sessions),
modelled as an association list. -/
abbrev ValueMap := List (String × String)

/-- Model of the gorilla/securecookie codec stack (an external
dependency): `EncodeMulti`/`DecodeMulti` applied to the session ID (the
cookie payload written by `Save`) and to the session values map (the
blob stored in `session_data`).  `none` models a codec error. -/
structure Codec where
  encodeID : String → Option String
  decodeID : String → Option String
  encodeValues : ValueMap → Option String
  decodeValues : String → Option ValueMap

/-- sessions.Options: cookie options copied by `New` and used by
`Save`/`Delete` when writing the cookie. -/
structure Options where
  path : String
  domain : String
  maxAge : Int
  secure : Bool
  httpOnly : Bool
  deriving DecidableEq, Repr

/-- A sessions.Session as far as the store touches it: identifier,
cookie name, values map, IsNew flag and cookie options. -/
structure Session where
  ID : String
  name : String
  Values : ValueMap
  IsNew : Bool
  Options : Options
  deriving DecidableEq, Repr

/-- An http.Cookie as produced by sessions.NewCookie. -/
structure Cookie where
  name : String
  value : String
  path : String
  domain : String
  maxAge : Int
  secure : Bool
  httpOnly : Bool
  deriving DecidableEq, Repr

/-- sessions.NewCookie: a cookie carrying the given value and the
session's options. -/
def newCookie (name value : String) (o : Options) : Cookie :=
  { name := name, value := value, path := o.path, domain := o.domain,
    maxAge := o.maxAge, secure := o.secure, httpOnly := o.httpOnly }

/-- One row of the sessions table, per the DDL in
`NewMySQLStoreFromConnection` (mysqlstore.go:57-62): auto-increment
integer id, `session_data` blob, and the three timestamp columns.
Timestamps are integers (seconds); `NOW()` is passed as a parameter to
each statement's semantics. -/
structure SessionRow where
  id : Nat
  session_data : String
  created_on : Int
  modified_on : Int
  expires_on : Int
  deriving DecidableEq, Repr

/-- The sessions table together with MySQL's auto-increment counter. -/
structure DB where
  rows : List SessionRow
  nextId : Nat
  deriving DecidableEq, Repr

/-! ### Decimal rendering and MySQL string-to-number coercion

`insert` renders the auto-increment id with `fmt.Sprintf("%d", ...)`
(mysqlstore.go:197); the prepared statements receive `session.ID`, a
string, which MySQL coerces to a number before comparing it with the
integer `id` column.  `natToDec` embeds the rendering, `decValue?` the
coercion (a strict decimal parse; a non-numeric string matches no id in
the model, which is adequate because ids only ever reach the statements
as decimal strings produced by `natToDec`). -/

/-- Decimal rendering of a natural number, as produced by
`fmt.Sprintf` with the `%d` verb on a non-negative integer. -/
def natToDec (n : Nat) : String :=
  if n = 0 then "0"
  else ⟨(Nat.digits 10 n).reverse.map (fun d => Char.ofNat (48 + d))⟩

/-- The numeric value of a decimal digit character, if it is one. -/
def decDigit? (c : Char) : Option Nat :=
  if 48 ≤ c.toNat ∧ c.toNat ≤ 57 then some (c.toNat - 48) else none

/-- Fold a big-endian run of decimal digit characters onto an
accumulator; fails on the first non-digit. -/
def decFold : List Char → Nat → Option Nat
  | [], acc => some acc
  | c :: cs, acc =>
    match decDigit? c with
    | none => none
    | some d => decFold cs (10 * acc + d)

/-- Numeric value of a non-empty all-digit string (MySQL's coercion of
a string parameter compared against an integer column, restricted to
the well-formed identifiers the store produces). -/
def decValue? (s : String) : Option Nat :=
  if s.data.isEmpty then none else decFold s.data 0

theorem decFold_append (xs ys : List Char) (acc : Nat) :
    decFold (xs ++ ys) acc =
      match decFold xs acc with
      | none => none
      | some a => decFold ys a := by
  induction xs generalizing acc with
  | nil => rfl
  | cons c cs ih =>
    simp only [List.cons_append, decFold]
    cases decDigit? c with
    | none => rfl
    | some d => exact ih _

theorem decDigit_ofNat (d : Nat) (hd : d < 10) :
    decDigit? (Char.ofNat (48 + d)) = some d := by
  revert hd
  revert d
  decide

theorem decFold_digits (L : List Nat) (hL : ∀ d ∈ L, d < 10) (acc : Nat) :
    decFold ((Nat.digits 10 0).reverse.map (fun d => Char.ofNat (48 + d)) ++
        (L.map (fun d => Char.ofNat (48 + d))).reverse) acc =
      some (acc * 10 ^ L.length + Nat.ofDigits 10 L) := by
  simp only [Nat.digits_zero, List.reverse_nil, List.map_nil, List.nil_append]
  induction L generalizing acc with
  | nil => simp [decFold, Nat.ofDigits_nil]
  | cons d L ih =>
    have hd : d < 10 := hL d (by simp)
    have hrest : ∀ x ∈ L, x < 10 := fun x hx => hL x (by simp [hx])
    rw [List.map_cons, List.reverse_cons, decFold_append, ih hrest acc]
    simp only [decFold, decDigit_ofNat d hd]
    rw [Nat.ofDigits_cons]
    congr 1
    simp only [List.length_cons, pow_succ]
    ring

theorem decValue_natToDec (n : Nat) : decValue? (natToDec n) = some n := by
  by_cases h0 : n = 0
  · subst h0
    decide
  · have hne : Nat.digits 10 n ≠ [] := Nat.digits_ne_nil_iff_ne_zero.mpr h0
    have hlt : ∀ d ∈ Nat.digits 10 n, d < 10 :=
      fun d hd => Nat.digits_lt_base (by norm_num) hd
    have hdata : (natToDec n).data =
        ((Nat.digits 10 n).map (fun d => Char.ofNat (48 + d))).reverse := by
      simp [natToDec, h0, List.map_reverse]
    have hfold := decFold_digits (Nat.digits 10 n) hlt 0
    simp only [Nat.digits_zero, List.reverse_nil, List.map_nil,
      List.nil_append, Nat.zero_mul, Nat.zero_add, Nat.ofDigits_digits] at hfold
    have hnonempty : ((Nat.digits 10 n).map
        (fun d => Char.ofNat (48 + d))).reverse.isEmpty = false := by
      cases h : Nat.digits 10 n with
      | nil => exact absurd h hne
      | cons a l => simp [h, List.isEmpty_iff]
    rw [decValue?, hdata, hnonempty]
    simp only [Bool.false_eq_true, if_false]
    exact hfold

/-! ### The store and its construction (mysqlstore.go:22-123) -/

/-- A MySQL driver error (`*mysql.MySQLError`, carrying an error
number) or any other error, as distinguished by the type switch in
`NewMySQLStoreFromConnection` (mysqlstore.go:64-74). -/
inductive SQLError where
  | mysqlErr (number : Nat) (msg : String)
  | otherErr (msg : String)
  deriving DecidableEq, Repr

/-- strings.Trim(tableName, backtick): drop every leading and trailing
backtick character. -/
def trimBackticks (s : String) : String :=
  ⟨((s.data.dropWhile (· == Char.ofNat 96)).reverse.dropWhile
      (· == Char.ofNat 96)).reverse⟩

/-- The MySQLStore record (mysqlstore.go:22-34).  The five prepared
statements are kept as their SQL text; their semantics are the `exec`
and `query` functions below.  `Codecs` is the securecookie codec stack
and `Options` the default cookie options. -/
structure MySQLStore where
  table : String
  insQ : String
  delQ : String
  updQ : String
  selQ : String
  cleanQ : String
  Codecs : Codec
  Options : Options

/-- The statement-preparation tail of `NewMySQLStoreFromConnection`
(mysqlstore.go:77-122): prepare insert, delete, update, select and
cleanup in that order, aborting with the first failure; on success
build the store value. -/
def prepareStmts (prepIns prepDel prepUpd prepSel prepClean : Option SQLError)
    (tn path : String) (maxAge : Int) (keyPairs : Codec) :
    Except SQLError MySQLStore :=
  match prepIns with
  | some e => .error e
  | none =>
    match prepDel with
    | some e => .error e
    | none =>
      match prepUpd with
      | some e => .error e
      | none =>
        match prepSel with
        | some e => .error e
        | none =>
          match prepClean with
          | some e => .error e
          | none =>
            .ok { table := tn
                  insQ := "INSERT INTO " ++ tn ++
                    "(id, session_data, expires_on) VALUES" ++
                    " (NULL, ?, ADDDATE(NOW(), INTERVAL " ++
                    toString maxAge ++ " SECOND))"
                  delQ := "DELETE FROM " ++ tn ++ " WHERE id = ?"
                  updQ := "UPDATE " ++ tn ++
                    " SET session_data = ? WHERE id = ?"
                  selQ := "SELECT id, session_data, expires_on < NOW() FROM " ++
                    tn ++ " WHERE id = ?"
                  cleanQ := "DELETE FROM " ++ tn ++ " WHERE expires_on < NOW()"
                  Codecs := keyPairs
                  Options := { path := path, domain := "", maxAge := maxAge,
                               secure := false, httpOnly := false } }

/-- NewMySQLStoreFromConnection (mysqlstore.go:53-123).  The outcome of
`db.Exec` on the CREATE TABLE and of each `db.Prepare` is an input
(`none` = success).  A create failure is tolerated exactly when it is a
MySQL error with number 1142 (permission denied); any other create
failure, and any preparation failure, is returned and no store is
built. -/
def NewMySQLStoreFromConnection (createRes : Option SQLError)
    (prepIns prepDel prepUpd prepSel prepClean : Option SQLError)
    (tableName path : String) (maxAge : Int) (keyPairs : Codec) :
    Except SQLError MySQLStore :=
  let tn := "`" ++ trimBackticks tableName ++ "`"
  match createRes with
  | some (.mysqlErr n m) =>
    if n = 1142 then
      prepareStmts prepIns prepDel prepUpd prepSel prepClean tn path maxAge
        keyPairs
    else .error (.mysqlErr n m)
  | some (.otherErr m) => .error (.otherErr m)
  | none =>
    prepareStmts prepIns prepDel prepUpd prepSel prepClean tn path maxAge
      keyPairs

/-! ### Statement semantics over the model database -/

/-- WHERE id = ? with the string `session.ID` as parameter: MySQL
coerces the string to a number and compares it with the `id` column;
`find?` returns the first matching row. -/
def rowFor (db : DB) (idStr : String) : Option SessionRow :=
  db.rows.find? (fun r => decValue? idStr == some r.id)

/-- stmtInsert (`insQ`, mysqlstore.go:77-78): insert a fresh row with
the encoded data, `created_on`/`modified_on` defaulted to `NOW()` and
`expires_on = ADDDATE(NOW(), INTERVAL maxAge SECOND)`; the second
component is `LastInsertId`. -/
def execInsert (db : DB) (now maxAge : Int) (data : String) : DB × Nat :=
  ({ rows := db.rows ++
      [{ id := db.nextId, session_data := data, created_on := now,
         modified_on := now, expires_on := now + maxAge }],
     nextId := db.nextId + 1 }, db.nextId)

/-- stmtUpdate (`updQ`, mysqlstore.go:90): overwrite `session_data` of
every row matching the id; the DDL's `ON UPDATE CURRENT_TIMESTAMP`
refreshes `modified_on`. -/
def execUpdate (db : DB) (now : Int) (idStr data : String) : DB :=
  { db with rows := db.rows.map (fun r =>
      if decValue? idStr == some r.id then
        { r with session_data := data, modified_on := now }
      else r) }

/-- stmtDelete (`delQ`, mysqlstore.go:84): remove the rows matching the
id. -/
def execDelete (db : DB) (idStr : String) : DB :=
  { db with rows := db.rows.filter (fun r => !(decValue? idStr == some r.id)) }

/-- stmtCleanup (`cleanQ`, mysqlstore.go:103): DELETE FROM table WHERE
expires_on < NOW(). -/
def execCleanup (db : DB) (now : Int) : DB :=
  { db with rows := db.rows.filter (fun r => !(decide (r.expires_on < now))) }

/-- stmtSelect (`selQ`, mysqlstore.go:96-97): SELECT id, session_data,
expires_on < NOW() ... WHERE id = ?; the expiration comparison is part
of the query's result row. -/
def querySelect (db : DB) (now : Int) (idStr : String) :
    Option (Nat × String × Bool) :=
  (rowFor db idStr).map (fun r =>
    (r.id, r.session_data, decide (r.expires_on < now)))

/-! ### Session operations (mysqlstore.go:140-253) -/

/-- The ways `load` can fail (mysqlstore.go:236-253): `row.Scan` finds
no row (sql.ErrNoRows), the row is past expiration
(errors.New("Session expired")), or the stored blob fails to decode. -/
inductive LoadError where
  | noRows
  | sessionExpired
  | decodeErr
  deriving DecidableEq, Repr

/-- load (mysqlstore.go:236-253): run stmtSelect on `session.ID`; no
row is a scan error; if the selected `expires_on < NOW()` bit is set,
fail with the expiration error; otherwise decode the blob into
`session.Values`.  The second component is the database after the
call — a SELECT, so always unchanged. -/
def load (codec : Codec) (db : DB) (now : Int) (session : Session) :
    Except LoadError Session × DB :=
  match querySelect db now session.ID with
  | none => (.error .noRows, db)
  | some (_, data, expired) =>
    if expired then (.error .sessionExpired, db)
    else
      match codec.decodeValues data with
      | none => (.error .decodeErr, db)
      | some vs => (.ok { session with Values := vs }, db)

/-- The error surface of New (mysqlstore.go:141-164): the only error it
can return is the securecookie decode failure. -/
inductive NewError where
  | decodeFail
  deriving DecidableEq, Repr

/-- sessions.NewSession plus the option-copying prologue of New
(mysqlstore.go:142-150): a fresh, empty session with `IsNew = true`
and the store's cookie options. -/
def NewSession (store : MySQLStore) (name : String) : Session :=
  { ID := "", name := name, Values := [], IsNew := true,
    Options := { path := store.Options.path, domain := store.Options.domain,
                 maxAge := store.Options.maxAge,
                 secure := store.Options.secure,
                 httpOnly := store.Options.httpOnly } }

/-- New (mysqlstore.go:141-164).  `cookie` is the value of the request
cookie of that name (`none` = no cookie).  With a cookie present, the
codec decodes it into `session.ID`; on decode failure that error is
kept and returned.  On decode success, `load` runs: success clears
`IsNew`, while a load failure is discarded (`err = nil`) leaving the
fresh session with the decoded ID. -/
def New (store : MySQLStore) (db : DB) (now : Int) (name : String)
    (cookie : Option String) : Session × Option NewError :=
  let session := NewSession store name
  match cookie with
  | none => (session, none)
  | some cv =>
    match store.Codecs.decodeID cv with
    | none => (session, some .decodeFail)
    | some sid =>
      let s1 : Session := { session with ID := sid }
      match (load store.Codecs db now s1).1 with
      | .ok s2 => ({ s2 with IsNew := false }, none)
      | .error _ => (s1, none)

/-- The errors of the write path: a securecookie encode failure or a
database error from `Exec` (the latter injected by the oracle). -/
inductive SaveError where
  | encodeFail
  | dbErr (msg : String)
  deriving DecidableEq, Repr

/-- insert (mysqlstore.go:184-199): encode the values, run stmtInsert
(`execErr` is the driver outcome), and render `LastInsertId` in decimal
into `session.ID`. -/
def insert (codec : Codec) (now maxAge : Int) (session : Session) (db : DB)
    (execErr : Option String) : Except SaveError (Session × DB) :=
  match codec.encodeValues session.Values with
  | none => .error .encodeFail
  | some encoded =>
    match execErr with
    | some m => .error (.dbErr m)
    | none =>
      let res := execInsert db now maxAge encoded
      .ok ({ session with ID := natToDec res.2 }, res.1)

/-- save (mysqlstore.go:220-234): a session still flagged IsNew is
inserted; otherwise the values are re-encoded and stmtUpdate overwrites
the row's data. -/
def save (codec : Codec) (now maxAge : Int) (session : Session) (db : DB)
    (execErr : Option String) : Except SaveError (Session × DB) :=
  if session.IsNew then insert codec now maxAge session db execErr
  else
    match codec.encodeValues session.Values with
    | none => .error .encodeFail
    | some encoded =>
      match execErr with
      | some m => .error (.dbErr m)
      | none => .ok (session, execUpdate db now session.ID encoded)

/-- Save (mysqlstore.go:167-182): an empty identifier routes to
`insert`, otherwise to `save`; then the (possibly new) identifier is
encoded and set as the response cookie. -/
def Save (codec : Codec) (now maxAge : Int) (session : Session) (db : DB)
    (execErr : Option String) : Except SaveError (Session × DB × Cookie) :=
  match (if session.ID = "" then insert codec now maxAge session db execErr
         else save codec now maxAge session db execErr) with
  | .error e => .error e
  | .ok (s1, db1) =>
    match codec.encodeID s1.ID with
    | none => .error .encodeFail
    | some encoded =>
      .ok (s1, db1, newCookie s1.name encoded s1.Options)

/-- Delete (mysqlstore.go:202-218): first write the expiring cookie
(a copy of the session options with MaxAge = -1), then clear the values
map, and only then run stmtDelete; a delete failure is returned after
those client-visible effects have happened.  Result: the written
cookie, the mutated session, the database and the returned error. -/
def Delete (session : Session) (db : DB) (execErr : Option String) :
    Cookie × Session × DB × Option SaveError :=
  let options : Options := { session.Options with maxAge := -1 }
  let cookie := newCookie session.name "" options
  let session1 : Session := { session with Values := [] }
  match execErr with
  | some m => (cookie, session1, db, some (.dbErr m))
  | none => (cookie, session1, execDelete db session.ID, none)

/-! ### The expiration sweeper (cleanup.go)

The goroutine body `cleanup` (cleanup.go:39-60) is a loop around a
`select` over the quit channel and the ticker.  Its scheduling is
embedded as a list of `select` outcomes: each element is either a
ticker fire (carrying the driver outcome of `stmtCleanup.Exec` on that
tick) or the receipt of the quit signal.  The loop's observable
behaviour is its action trace: executing the purge statement, logging a
failed purge, sending the `done` acknowledgment, and the deferred
`ticker.Stop()` that runs when the goroutine returns. -/

/-- One `select` outcome inside the cleanup loop: the ticker fired
(with the error result of the purge exec, `none` = success) or the quit
signal arrived. -/
inductive CleanupEvent where
  | tick (execErr : Option String)
  | quit
  deriving DecidableEq, Repr

/-- An observable action of the cleanup goroutine. -/
inductive CleanupAction where
  | purge
  | logSweepErr (msg : String)
  | sendDone
  | stopTicker
  deriving DecidableEq, Repr

/-- cleanup (cleanup.go:39-60): on a tick, run the purge and log any
error, then continue; on quit, send `done`, return, and let the
deferred `ticker.Stop()` run.  Events after the quit are never
consumed — the goroutine is gone. -/
def cleanup : List CleanupEvent → List CleanupAction
  | [] => []
  | .quit :: _ => [.sendDone, .stopTicker]
  | .tick none :: evs => .purge :: cleanup evs
  | .tick (some e) :: evs => .purge :: .logSweepErr e :: cleanup evs

/-- StopCleanup (cleanup.go:33-36) sends the quit signal and then
blocks receiving `done`; with both channels unbuffered it returns
precisely when the loop has performed `sendDone`. -/
def stopCleanupReturns (evs : List CleanupEvent) : Prop :=
  CleanupAction.sendDone ∈ cleanup evs

/-- Number of ticker fires handled before the first quit signal — the
purge attempts the loop makes. -/
def ticksBeforeQuit : List CleanupEvent → Nat
  | [] => 0
  | .quit :: _ => 0
  | .tick _ :: evs => 1 + ticksBeforeQuit evs

/-- Number of purge executions in an action trace. -/
def purgeCount : List CleanupAction → Nat
  | [] => 0
  | .purge :: acts => purgeCount acts + 1
  | _ :: acts => purgeCount acts

/-- time.Duration is an integer count of nanoseconds;
`defaultInterval = time.Minute * 5` (cleanup.go:16). -/
def defaultInterval : Int := 5 * 60 * 1000000000

/-- What Cleanup (cleanup.go:22-30) hands to the spawned goroutine: the
ticker period.  The loop's behaviour (`cleanup` above) depends only on
the `select` outcomes, so the period is the only interval-dependent
observable. -/
structure CleanupHandle where
  tickerPeriod : Int
  deriving DecidableEq, Repr

/-- Cleanup (cleanup.go:22-30): a non-positive interval is replaced by
`defaultInterval` before the goroutine is spawned. -/
def Cleanup (interval : Int) : CleanupHandle :=
  { tickerPeriod := if interval ≤ 0 then defaultInterval else interval }

/-! ### Sample values used by the concrete witnesses -/

/-- Sample cookie options. -/
def optsEx : Options :=
  { path := "/", domain := "", maxAge := 3600, secure := false,
    httpOnly := false }

/-- Sample row expiring at time 3. -/
def rowA : SessionRow :=
  { id := 1, session_data := "blobA", created_on := 0, modified_on := 0,
    expires_on := 3 }

/-- Sample row expiring at time 7. -/
def rowB : SessionRow :=
  { id := 2, session_data := "blobB", created_on := 0, modified_on := 0,
    expires_on := 7 }

/-- Sample table holding `rowA` and `rowB`. -/
def dbEx : DB := { rows := [rowA, rowB], nextId := 3 }

/-- Sample empty table. -/
def dbEmpty : DB := { rows := [], nextId := 1 }

/-- Sample existing (not new) session under identifier "1". -/
def sessEx : Session :=
  { ID := "1", name := "sess", Values := [("user", "a")], IsNew := false,
    Options := optsEx }

/-- Sample codec that rejects every decode. -/
def codecReject : Codec :=
  { encodeID := fun s => some s, decodeID := fun _ => none,
    encodeValues := fun _ => some "", decodeValues := fun _ => none }

/-- Sample codec that decodes every cookie to the identifier "7". -/
def codecID7 : Codec :=
  { encodeID := fun s => some s, decodeID := fun _ => some "7",
    encodeValues := fun _ => some "", decodeValues := fun _ => none }

/-- Sample codec whose value encoding is the blob "b0" and whose decode
inverts it. -/
def codecRT : Codec :=
  { encodeID := fun s => some s, decodeID := fun s => some s,
    encodeValues := fun _ => some "b0",
    decodeValues := fun s =>
      if s = "b0" then some [("user", "a")] else none }

/-- Sample store wrapping a given codec. -/
def storeEx (c : Codec) : MySQLStore :=
  { table := "`sessions`", insQ := "", delQ := "", updQ := "", selQ := "",
    cleanQ := "", Codecs := c, Options := optsEx }

/-! ### C3 — PurgeExpired removes exactly the expired rows -/

/-- C3: the delete-expired statement keeps a row exactly when its
`expires_on` is at or after the current time, and the surviving rows
are a sublist of the original ones, each kept unchanged. -/
theorem purgeExpired_exact (db : DB) (now : Int) (r : SessionRow) :
    (r ∈ (execCleanup db now).rows ↔ r ∈ db.rows ∧ now ≤ r.expires_on) ∧
    (execCleanup db now).rows.Sublist db.rows := by
  refine ⟨?_, List.filter_sublist _⟩
  simp [execCleanup, List.mem_filter, not_lt]

/-- Witness for C3 at a concrete table and time. -/
theorem purgeExpired_exact_witness :
    (rowB ∈ (execCleanup dbEx 5).rows ↔
      rowB ∈ dbEx.rows ∧ (5 : Int) ≤ rowB.expires_on) ∧
    (execCleanup dbEx 5).rows.Sublist dbEx.rows :=
  purgeExpired_exact dbEx 5 rowB

/-! ### C8 — non-positive interval means the default interval -/

/-- C8: Cleanup with interval ≤ 0 produces the same handle as Cleanup
with the documented default, whose ticker period is 5 minutes in
nanoseconds; the spawned loop itself depends only on the handle. -/
theorem cleanup_nonpositive_interval (interval : Int) (h : interval ≤ 0) :
    Cleanup interval = Cleanup defaultInterval ∧
    (Cleanup interval).tickerPeriod = 5 * 60 * 1000000000 := by
  constructor
  · simp only [Cleanup, defaultInterval]
    norm_num [h]
  · simp [Cleanup, defaultInterval, h]

/-- Witness for C8 at interval -3. -/
theorem cleanup_nonpositive_interval_witness :
    Cleanup (-3) = Cleanup defaultInterval ∧
    (Cleanup (-3)).tickerPeriod = 5 * 60 * 1000000000 :=
  cleanup_nonpositive_interval (-3) (by decide)

/-! ### C6 — a failed sweep is logged and the loop continues -/

theorem purgeCount_cleanup (evs : List CleanupEvent) :
    purgeCount (cleanup evs) = ticksBeforeQuit evs := by
  induction evs with
  | nil => rfl
  | cons a evs ih =>
    cases a with
    | quit => rfl
    | tick o =>
      cases o with
      | none =>
        simp only [cleanup, purgeCount, ticksBeforeQuit, ih]
        omega
      | some e =>
        simp only [cleanup, purgeCount, ticksBeforeQuit, ih]
        omega

/-- C6: a tick whose purge exec fails produces the purge attempt and a
log entry, after which the loop processes the rest of the schedule
unchanged; in particular the total number of purge executions is one
plus one per remaining tick before the first quit, exactly as for a
successful tick. -/
theorem sweep_error_nonfatal (e : String) (evs : List CleanupEvent) :
    cleanup (.tick (some e) :: evs) =
      .purge :: .logSweepErr e :: cleanup evs ∧
    purgeCount (cleanup (.tick (some e) :: evs)) = 1 + ticksBeforeQuit evs ∧
    purgeCount (cleanup (.tick none :: evs)) = 1 + ticksBeforeQuit evs := by
  refine ⟨rfl, ?_, ?_⟩
  · simp only [cleanup, purgeCount, purgeCount_cleanup]
    omega
  · simp only [cleanup, purgeCount, purgeCount_cleanup]
    omega

/-! ### C2 — the stop handshake is synchronous and final -/

/-- C2: for every schedule in which the quit signal arrives, the action
trace is the pre-quit trace followed by exactly the done acknowledgment
and the deferred ticker stop.  Later events contribute nothing, done is
sent only at that point, and no purge follows it; StopCleanup returns
precisely when done is received, i.e. after the loop has terminated. -/
theorem stopCleanup_sync (evs1 evs2 : List CleanupEvent)
    (h : CleanupEvent.quit ∉ evs1) :
    cleanup (evs1 ++ .quit :: evs2) =
      cleanup evs1 ++ [.sendDone, .stopTicker] ∧
    stopCleanupReturns (evs1 ++ .quit :: evs2) ∧
    CleanupAction.sendDone ∉ cleanup evs1 ∧
    CleanupAction.purge ∉
      ([CleanupAction.sendDone, CleanupAction.stopTicker] :
        List CleanupAction) := by
  induction evs1 with
  | nil =>
    refine ⟨rfl, ?_, by simp [cleanup], by decide⟩
    simp [stopCleanupReturns, cleanup]
  | cons a evs1 ih =>
    have ha : a ≠ CleanupEvent.quit := fun hq => h (hq ▸ List.mem_cons_self a evs1)
    have h2 : CleanupEvent.quit ∉ evs1 := fun hm => h (List.mem_cons_of_mem a hm)
    obtain ⟨ih1, ih2, ih3, ih4⟩ := ih h2
    cases a with
    | quit => exact absurd rfl ha
    | tick o =>
      cases o with
      | none =>
        refine ⟨?_, ?_, ?_, by decide⟩
        · simp only [List.cons_append, cleanup, List.append_eq, ih1]
        · simp only [stopCleanupReturns, List.cons_append, cleanup]
          exact List.mem_cons_of_mem _ ih2
        · simp only [cleanup, List.mem_cons]
          rintro (hc | hc)
          · exact CleanupAction.noConfusion hc
          · exact ih3 hc
      | some e =>
        refine ⟨?_, ?_, ?_, by decide⟩
        · simp only [List.cons_append, cleanup, List.append_eq, ih1]
        · simp only [stopCleanupReturns, List.cons_append, cleanup]
          exact List.mem_cons_of_mem _ (List.mem_cons_of_mem _ ih2)
        · simp only [cleanup, List.mem_cons]
          rintro (hc | hc | hc)
          · exact CleanupAction.noConfusion hc
          · exact CleanupAction.noConfusion hc
          · exact ih3 hc

/-- Witness for C2: one tick before the quit, one (never-consumed) tick
after it. -/
theorem stopCleanup_sync_witness :
    cleanup ([.tick none] ++ .quit :: [.tick (some "late")]) =
      cleanup [.tick none] ++ [.sendDone, .stopTicker] ∧
    stopCleanupReturns ([.tick none] ++ .quit :: [.tick (some "late")]) ∧
    CleanupAction.sendDone ∉ cleanup [CleanupEvent.tick none] ∧
    CleanupAction.purge ∉
      ([CleanupAction.sendDone, CleanupAction.stopTicker] :
        List CleanupAction) :=
  stopCleanup_sync [.tick none] [.tick (some "late")] (by decide)

/-! ### C10 — Delete's client-visible effects precede the database delete -/

/-- C10: Delete always writes the expiring cookie (MaxAge = -1) and
empties the values map; when the delete exec fails that error is
returned verbatim with the database untouched, the earlier effects
having happened regardless; on success the matching row is removed. -/
theorem delete_effects_before_db (session : Session) (db : DB)
    (execErr : Option String) :
    (Delete session db execErr).1 =
      newCookie session.name "" { session.Options with maxAge := -1 } ∧
    (Delete session db execErr).1.maxAge = -1 ∧
    (Delete session db execErr).2.1.Values = [] ∧
    (∀ m, execErr = some m →
      (Delete session db execErr).2.2.1 = db ∧
      (Delete session db execErr).2.2.2 = some (.dbErr m)) ∧
    (execErr = none →
      (Delete session db execErr).2.2.1 = execDelete db session.ID ∧
      (Delete session db execErr).2.2.2 = none) := by
  cases execErr <;> simp [Delete, newCookie]

/-- Witness for C10: a failing delete exec still yields the expiring
cookie and the emptied values. -/
theorem delete_effects_before_db_witness :
    (Delete sessEx dbEx (some "boom")).1 =
      newCookie sessEx.name "" { sessEx.Options with maxAge := -1 } ∧
    (Delete sessEx dbEx (some "boom")).1.maxAge = -1 ∧
    (Delete sessEx dbEx (some "boom")).2.1.Values = [] ∧
    (∀ m, (some "boom" : Option String) = some m →
      (Delete sessEx dbEx (some "boom")).2.2.1 = dbEx ∧
      (Delete sessEx dbEx (some "boom")).2.2.2 = some (.dbErr m)) ∧
    ((some "boom" : Option String) = none →
      (Delete sessEx dbEx (some "boom")).2.2.1 = execDelete dbEx sessEx.ID ∧
      (Delete sessEx dbEx (some "boom")).2.2.2 = none) :=
  delete_effects_before_db sessEx dbEx (some "boom")

/-! ### C5 — initialization tolerates exactly error 1142 on create -/

theorem prepareStmts_ok_iff (i d u s cl : Option SQLError)
    (tn p : String) (ma : Int) (k : Codec) :
    (∃ st, prepareStmts i d u s cl tn p ma k = .ok st) ↔
      (i = none ∧ d = none ∧ u = none ∧ s = none ∧ cl = none) := by
  cases i <;> cases d <;> cases u <;> cases s <;> cases cl <;>
    simp [prepareStmts]

/-- The error identity of a failed preparation: whichever of the five
statements is the first to fail, `prepareStmts` returns exactly that
statement's error (mysqlstore.go:79-107 returns stmtErr verbatim at
each step). -/
theorem prepareStmts_first_err (i d u s cl : Option SQLError)
    (tn p : String) (ma : Int) (k : Codec) (e : SQLError)
    (h : i = some e ∨ (i = none ∧ d = some e) ∨
      (i = none ∧ d = none ∧ u = some e) ∨
      (i = none ∧ d = none ∧ u = none ∧ s = some e) ∨
      (i = none ∧ d = none ∧ u = none ∧ s = none ∧ cl = some e)) :
    prepareStmts i d u s cl tn p ma k = .error e := by
  rcases h with rfl | ⟨rfl, rfl⟩ | ⟨rfl, rfl, rfl⟩ | ⟨rfl, rfl, rfl, rfl⟩ |
    ⟨rfl, rfl, rfl, rfl, rfl⟩ <;> rfl

/-- C5: a store is produced exactly when the table creation succeeded or
failed with MySQL error 1142 and all five preparations succeeded; any
other creation failure is returned verbatim, and (create being
tolerated) whichever of the five preparations — insert, delete, update,
select or cleanup — is the first to fail has its error returned
verbatim; the error branch carries no store. -/
theorem newStore_init_errors (c i d u s cl : Option SQLError)
    (tn p : String) (ma : Int) (k : Codec) :
    ((∃ st, NewMySQLStoreFromConnection c i d u s cl tn p ma k = .ok st) ↔
      ((c = none ∨ ∃ m, c = some (.mysqlErr 1142 m)) ∧
        i = none ∧ d = none ∧ u = none ∧ s = none ∧ cl = none)) ∧
    (∀ m, c = some (.otherErr m) →
      NewMySQLStoreFromConnection c i d u s cl tn p ma k =
        .error (.otherErr m)) ∧
    (∀ n m, c = some (.mysqlErr n m) → n ≠ 1142 →
      NewMySQLStoreFromConnection c i d u s cl tn p ma k =
        .error (.mysqlErr n m)) ∧
    (∀ e, (c = none ∨ ∃ m, c = some (.mysqlErr 1142 m)) →
      (i = some e ∨ (i = none ∧ d = some e) ∨
        (i = none ∧ d = none ∧ u = some e) ∨
        (i = none ∧ d = none ∧ u = none ∧ s = some e) ∨
        (i = none ∧ d = none ∧ u = none ∧ s = none ∧ cl = some e)) →
      NewMySQLStoreFromConnection c i d u s cl tn p ma k = .error e) := by
  refine ⟨?_, ?_, ?_, ?_⟩
  · cases c with
    | none =>
      simp only [NewMySQLStoreFromConnection, prepareStmts_ok_iff]
      simp
    | some e =>
      cases e with
      | mysqlErr n m =>
        by_cases hn : n = 1142
        · subst hn
          simp only [NewMySQLStoreFromConnection, if_pos rfl,
            prepareStmts_ok_iff]
          simp only [Option.some_ne_none, false_or]
          rw [show (∃ m2, (some (SQLError.mysqlErr 1142 m) :
              Option SQLError) = some (.mysqlErr 1142 m2)) ↔ True from
            iff_of_true ⟨m, rfl⟩ trivial]
          simp
          exact prepareStmts_ok_iff _ _ _ _ _ _ _ _ _
        · simp only [NewMySQLStoreFromConnection, if_neg hn]
          simp [hn]
      | otherErr m =>
        simp [NewMySQLStoreFromConnection]
  · rintro m rfl
    rfl
  · rintro n m rfl hn
    simp [NewMySQLStoreFromConnection, if_neg hn]
  · rintro e (rfl | ⟨m, rfl⟩) h
    · exact prepareStmts_first_err _ _ _ _ _ _ _ _ _ _ h
    · have h2 := prepareStmts_first_err i d u s cl
        ("`" ++ trimBackticks tn ++ "`") p ma k e h
      simpa [NewMySQLStoreFromConnection] using h2

/-- Witness for C5, applying the theorem at three concrete inputs: a
failing update preparation (create succeeded) returns that error, a
failing cleanup preparation (create denied with 1142) returns that
error, and creation denied with 1142 plus all preparations succeeding
yields a store. -/
theorem newStore_init_errors_witness :
    NewMySQLStoreFromConnection none none none (some (.otherErr "updfail"))
      none none "sessions" "/" 3600 codecReject =
      .error (.otherErr "updfail") ∧
    NewMySQLStoreFromConnection (some (.mysqlErr 1142 "denied")) none none
      none none (some (.otherErr "cleanfail")) "sessions" "/" 3600
      codecReject = .error (.otherErr "cleanfail") ∧
    (∃ st, NewMySQLStoreFromConnection (some (.mysqlErr 1142 "denied"))
      none none none none none "sessions" "/" 3600 codecReject = .ok st) :=
  ⟨(newStore_init_errors none none none (some (.otherErr "updfail")) none
      none "sessions" "/" 3600 codecReject).2.2.2 (.otherErr "updfail")
      (Or.inl rfl) (Or.inr (Or.inr (Or.inl ⟨rfl, rfl, rfl⟩))),
   (newStore_init_errors (some (.mysqlErr 1142 "denied")) none none none
      none (some (.otherErr "cleanfail")) "sessions" "/" 3600
      codecReject).2.2.2 (.otherErr "cleanfail") (Or.inr ⟨"denied", rfl⟩)
      (Or.inr (Or.inr (Or.inr (Or.inr ⟨rfl, rfl, rfl, rfl, rfl⟩)))),
   ((newStore_init_errors (some (.mysqlErr 1142 "denied")) none none none
      none none "sessions" "/" 3600 codecReject).1).mpr
      ⟨Or.inr ⟨"denied", rfl⟩, rfl, rfl, rfl, rfl, rfl⟩⟩

/-! ### C4 — loading an expired row fails with the expiration error -/

/-- C4: when the row for the identifier exists and its `expires_on` is
strictly before the current time, load fails with the expiration error
— distinct from the no-row error — leaves the database unchanged, and
the expiration bit is part of the select's result row itself; an absent
row instead yields the no-row error. -/
theorem load_expired_row (codec : Codec) (db : DB) (now : Int)
    (session : Session) (r : SessionRow)
    (hr : rowFor db session.ID = some r) (hexp : r.expires_on < now) :
    (load codec db now session).1 = .error .sessionExpired ∧
    (load codec db now session).2 = db ∧
    LoadError.sessionExpired ≠ LoadError.noRows ∧
    querySelect db now session.ID = some (r.id, r.session_data, true) ∧
    (∀ db2 : DB, rowFor db2 session.ID = none →
      (load codec db2 now session).1 = .error .noRows) := by
  have hq : querySelect db now session.ID =
      some (r.id, r.session_data, true) := by
    simp [querySelect, hr, hexp]
  refine ⟨?_, ?_, by decide, hq, ?_⟩
  · simp [load, hq]
  · simp [load, hq]
  · intro db2 h2
    simp [load, querySelect, h2]

/-- Witness for C4 at a concrete expired row. -/
theorem load_expired_row_witness :
    (load codecReject dbEx 5 sessEx).1 = .error .sessionExpired ∧
    (load codecReject dbEx 5 sessEx).2 = dbEx ∧
    LoadError.sessionExpired ≠ LoadError.noRows ∧
    querySelect dbEx 5 sessEx.ID = some (rowA.id, rowA.session_data, true) ∧
    (∀ db2 : DB, rowFor db2 sessEx.ID = none →
      (load codecReject db2 5 sessEx).1 = .error .noRows) :=
  load_expired_row codecReject dbEx 5 sessEx rowA (by decide) (by decide)

/-! ### C1 — error handling in New

The claim says a cookie decode failure is never surfaced by New.  In
the source (mysqlstore.go:151-163) only the `load` failure is discarded
(`err = nil`); the securecookie decode error is kept in `err` and
returned, so the claim is refuted and amended. -/

/-- C1 counterexample: a present cookie whose decode fails makes New
return the decode error — not nil — refuting the claim as stated. -/
theorem new_decode_error_surfaced :
    (storeEx codecReject).Codecs.decodeID "tampered" = none ∧
    (New (storeEx codecReject) dbEx 0 "sess" (some "tampered")).2 =
      some NewError.decodeFail ∧
    some NewError.decodeFail ≠ (none : Option NewError) := by
  refine ⟨rfl, rfl, by decide⟩

/-- C1 (amended): a load failure after a successful cookie decode is
swallowed — New returns nil error and a fresh `IsNew = true` session
carrying the decoded identifier; a decode failure also yields the
fresh, empty, `IsNew = true` session, but New returns the decode error
alongside it. -/
theorem new_failure_handling (store : MySQLStore) (db : DB) (now : Int)
    (name cv : String) :
    (NewSession store name).IsNew = true ∧
    (NewSession store name).Values = [] ∧
    (NewSession store name).ID = "" ∧
    (store.Codecs.decodeID cv = none →
      New store db now name (some cv) =
        (NewSession store name, some .decodeFail)) ∧
    (∀ sid e, store.Codecs.decodeID cv = some sid →
      (load store.Codecs db now
        { NewSession store name with ID := sid }).1 = .error e →
      New store db now name (some cv) =
        ({ NewSession store name with ID := sid }, none)) := by
  refine ⟨rfl, rfl, rfl, ?_, ?_⟩
  · intro h
    simp [New, h]
  · intro sid e h1 h2
    simp [New, h1, h2]

/-- Witness for C1 (amended): the decode-failure branch at a rejecting
codec, and the swallowed-load-failure branch at a codec decoding to an
identifier absent from the table. -/
theorem new_failure_handling_witness :
    New (storeEx codecReject) dbEmpty 0 "s" (some "bad") =
      (NewSession (storeEx codecReject) "s", some NewError.decodeFail) ∧
    New (storeEx codecID7) dbEmpty 0 "s" (some "tok") =
      ({ NewSession (storeEx codecID7) "s" with ID := "7" }, none) :=
  ⟨(new_failure_handling (storeEx codecReject) dbEmpty 0 "s" "bad").2.2.2.1
      rfl,
   (new_failure_handling (storeEx codecID7) dbEmpty 0 "s" "tok").2.2.2.2
      "7" LoadError.noRows rfl rfl⟩

/-! ### C9 — an update overwrites only the session_data of its row -/

/-- C9: Save of an existing session (non-empty identifier, not new)
runs the update statement, which changes only the `session_data` (and
DDL-auto-updated `modified_on`) of the rows matching the identifier:
every row keeps its id, `created_on` and `expires_on`, non-matching
rows are untouched, the row count and auto-increment counter are
preserved, and the session value itself is returned unchanged. -/
theorem save_update_frame (codec : Codec) (now maxAge : Int)
    (session : Session) (db : DB) (enc encID : String)
    (hID : session.ID ≠ "") (hNew : session.IsNew = false)
    (hEnc : codec.encodeValues session.Values = some enc)
    (hEncID : codec.encodeID session.ID = some encID) :
    Save codec now maxAge session db none =
      .ok (session, execUpdate db now session.ID enc,
        newCookie session.name encID session.Options) ∧
    (execUpdate db now session.ID enc).nextId = db.nextId ∧
    (execUpdate db now session.ID enc).rows.length = db.rows.length ∧
    (∀ i (h1 : i < db.rows.length)
        (h2 : i < (execUpdate db now session.ID enc).rows.length),
      ((execUpdate db now session.ID enc).rows.get ⟨i, h2⟩).id =
        (db.rows.get ⟨i, h1⟩).id ∧
      ((execUpdate db now session.ID enc).rows.get ⟨i, h2⟩).created_on =
        (db.rows.get ⟨i, h1⟩).created_on ∧
      ((execUpdate db now session.ID enc).rows.get ⟨i, h2⟩).expires_on =
        (db.rows.get ⟨i, h1⟩).expires_on ∧
      (decValue? session.ID ≠ some (db.rows.get ⟨i, h1⟩).id →
        (execUpdate db now session.ID enc).rows.get ⟨i, h2⟩ =
          db.rows.get ⟨i, h1⟩) ∧
      (decValue? session.ID = some (db.rows.get ⟨i, h1⟩).id →
        (execUpdate db now session.ID enc).rows.get ⟨i, h2⟩ =
          { db.rows.get ⟨i, h1⟩ with
              session_data := enc, modified_on := now })) := by
  refine ⟨?_, rfl, by simp [execUpdate], ?_⟩
  · simp [Save, save, hID, hNew, hEnc, hEncID]
  · intro i h1 h2
    have hget : (execUpdate db now session.ID enc).rows.get ⟨i, h2⟩ =
        if decValue? session.ID == some (db.rows.get ⟨i, h1⟩).id then
          { db.rows.get ⟨i, h1⟩ with
              session_data := enc, modified_on := now }
        else db.rows.get ⟨i, h1⟩ := by
      simp [execUpdate, List.get_eq_getElem, List.getElem_map]
    by_cases hc : decValue? session.ID = some (db.rows.get ⟨i, h1⟩).id
    · rw [hget, if_pos (by simp only [beq_iff_eq, List.get_eq_getElem] at hc ⊢; exact hc)]
      refine ⟨rfl, rfl, rfl, fun hne => absurd hc hne, fun _ => rfl⟩
    · rw [hget, if_neg (by simp only [beq_iff_eq, List.get_eq_getElem] at hc ⊢; exact hc)]
      exact ⟨rfl, rfl, rfl, fun _ => rfl, fun heq => absurd heq hc⟩

/-- Witness for C9: updating the session stored under identifier "1" in
a two-row table. -/
theorem save_update_frame_witness :
    Save codecRT 9 3600 sessEx dbEx none =
      .ok (sessEx, execUpdate dbEx 9 sessEx.ID "b0",
        newCookie sessEx.name "1" sessEx.Options) ∧
    (execUpdate dbEx 9 sessEx.ID "b0").nextId = dbEx.nextId ∧
    (execUpdate dbEx 9 sessEx.ID "b0").rows.length = dbEx.rows.length ∧
    (∀ i (h1 : i < dbEx.rows.length)
        (h2 : i < (execUpdate dbEx 9 sessEx.ID "b0").rows.length),
      ((execUpdate dbEx 9 sessEx.ID "b0").rows.get ⟨i, h2⟩).id =
        (dbEx.rows.get ⟨i, h1⟩).id ∧
      ((execUpdate dbEx 9 sessEx.ID "b0").rows.get ⟨i, h2⟩).created_on =
        (dbEx.rows.get ⟨i, h1⟩).created_on ∧
      ((execUpdate dbEx 9 sessEx.ID "b0").rows.get ⟨i, h2⟩).expires_on =
        (dbEx.rows.get ⟨i, h1⟩).expires_on ∧
      (decValue? sessEx.ID ≠ some (dbEx.rows.get ⟨i, h1⟩).id →
        (execUpdate dbEx 9 sessEx.ID "b0").rows.get ⟨i, h2⟩ =
          dbEx.rows.get ⟨i, h1⟩) ∧
      (decValue? sessEx.ID = some (dbEx.rows.get ⟨i, h1⟩).id →
        (execUpdate dbEx 9 sessEx.ID "b0").rows.get ⟨i, h2⟩ =
          { dbEx.rows.get ⟨i, h1⟩ with
              session_data := "b0", modified_on := 9 })) :=
  save_update_frame codecRT 9 3600 sessEx dbEx "b0" "1"
    (by decide) rfl rfl rfl

/-! ### C7 — Create followed by Load round-trips the values -/

theorem find?_none_append {α : Type} (p : α → Bool) (l1 l2 : List α)
    (h : l1.find? p = none) : (l1 ++ l2).find? p = l2.find? p := by
  induction l1 with
  | nil => rfl
  | cons a l ih =>
    cases hpa : p a with
    | true =>
      rw [List.find?_cons_of_pos _ hpa] at h
      exact absurd h (by simp)
    | false =>
      have hpa2 : ¬ p a = true := by simp [hpa]
      rw [List.find?_cons_of_neg _ hpa2] at h
      rw [List.cons_append, List.find?_cons_of_neg _ hpa2]
      exact ih h

/-- C7: inserting a session (the Create path: encode the values, run
stmtInsert, keep `LastInsertId`) yields the auto-increment id rendered
as a decimal string as the session identifier and leaves the values
intact, and loading under that identifier before `expires_on` has
passed returns exactly the inserted values (database untouched by the
read).  The codec hypotheses say the codec accepts the map and its
decode inverts its encode; the id hypothesis is the auto-increment
invariant that existing rows have ids below the counter. -/
theorem create_load_roundtrip (codec : Codec) (now maxAge loadTime : Int)
    (session : Session) (db : DB) (enc : String)
    (hinv : ∀ r ∈ db.rows, r.id < db.nextId)
    (hEnc : codec.encodeValues session.Values = some enc)
    (hDec : codec.decodeValues enc = some session.Values)
    (hFresh : ¬ now + maxAge < loadTime) :
    ∃ s1 db1, insert codec now maxAge session db none = .ok (s1, db1) ∧
      s1.ID = natToDec db.nextId ∧
      s1.Values = session.Values ∧
      (load codec db1 loadTime s1).1 = .ok s1 ∧
      (load codec db1 loadTime s1).2 = db1 := by
  refine ⟨{ session with ID := natToDec db.nextId },
    { rows := db.rows ++
        [{ id := db.nextId, session_data := enc, created_on := now,
           modified_on := now, expires_on := now + maxAge }],
      nextId := db.nextId + 1 }, ?_, rfl, rfl, ?_, ?_⟩
  · simp [insert, hEnc, execInsert]
  · have hfind : rowFor
        { rows := db.rows ++
            [{ id := db.nextId, session_data := enc, created_on := now,
               modified_on := now, expires_on := now + maxAge }],
          nextId := db.nextId + 1 } (natToDec db.nextId) =
        some { id := db.nextId, session_data := enc, created_on := now,
               modified_on := now, expires_on := now + maxAge } := by
      unfold rowFor
      rw [find?_none_append]
      · simp [decValue_natToDec]
      · apply List.find?_eq_none.mpr
        intro r hr
        simp only [decValue_natToDec, beq_iff_eq, Option.some_inj]
        exact fun heq => absurd heq.symm (Nat.ne_of_lt (hinv r hr))
    have hq : querySelect
        { rows := db.rows ++
            [{ id := db.nextId, session_data := enc, created_on := now,
               modified_on := now, expires_on := now + maxAge }],
          nextId := db.nextId + 1 } loadTime (natToDec db.nextId) =
        some (db.nextId, enc, false) := by
      simp [querySelect, hfind, hFresh]
    show (load codec _ loadTime { session with ID := natToDec db.nextId }).1 = _
    simp [load, hq, hDec]
  · have hq2 : rowFor
        { rows := db.rows ++
            [{ id := db.nextId, session_data := enc, created_on := now,
               modified_on := now, expires_on := now + maxAge }],
          nextId := db.nextId + 1 } (natToDec db.nextId) ≠ none := by
      unfold rowFor
      rw [find?_none_append]
      · simp [decValue_natToDec]
      · apply List.find?_eq_none.mpr
        intro r hr
        simp only [decValue_natToDec, beq_iff_eq, Option.some_inj]
        exact fun heq => absurd heq.symm (Nat.ne_of_lt (hinv r hr))
    simp [load, querySelect]
    cases hrr : rowFor
        { rows := db.rows ++
            [{ id := db.nextId, session_data := enc, created_on := now,
               modified_on := now, expires_on := now + maxAge }],
          nextId := db.nextId + 1 } (natToDec db.nextId) with
    | none => rfl
    | some r =>
      by_cases he : r.expires_on < loadTime
      · simp [he]
      · simp [he]
        cases codec.decodeValues r.session_data <;> rfl

/-- Witness for C7: inserting `[("user", "a")]` into the empty table at
time 0 with a one-hour max-age and loading at time 10. -/
theorem create_load_roundtrip_witness :
    ∃ s1 db1, insert codecRT 0 3600
        { ID := "", name := "sess", Values := [("user", "a")], IsNew := true,
          Options := optsEx } dbEmpty none = .ok (s1, db1) ∧
      s1.ID = natToDec dbEmpty.nextId ∧
      s1.Values = [("user", "a")] ∧
      (load codecRT db1 10 s1).1 = .ok s1 ∧
      (load codecRT db1 10 s1).2 = db1 :=
  create_load_roundtrip codecRT 0 3600 10
    { ID := "", name := "sess", Values := [("user", "a")], IsNew := true,
      Options := optsEx } dbEmpty "b0" (by simp [dbEmpty]) rfl (by decide)
    (by decide)

end Mysqlstore
